import Mathlib

/-!
Verification of the resilient Modbus acquisition pipeline
(`modbus_server/rs485_handler.py`, `modbus_server/main.py`, `modbus_client.py`).

Floating-point values are modelled as exact rationals (`ℚ`): the spec's
numeric claims are stated at real-number level, and every concrete value
appearing in the claims is exactly representable.  IEEE-754 binary32
register payloads are decoded exactly into `ℚ`; the exponent-255 patterns
(infinities, NaNs) are outside the model and never arise in the claims.
-/

namespace ModbusGateway

/-! ### Register codec

`rs485_handler.py` lines 178-179 convert two 16-bit registers into a
32-bit IEEE-754 float via `struct.pack('>HH', raw_registers[1],
raw_registers[0])` followed by `struct.unpack('>f', ...)`: the *second*
register supplies the high 16 bits (word order "little": first word is
the low half).  `modbus_client.py` lines 75-79 decode the same pair with
`word_order="little"`.  We model the bit-exact decode into `ℚ`. -/

/-- Exact value of an IEEE-754 binary32 bit pattern `b < 2^32`, as a
rational.  Normal: `(1 + m/2^23) * 2^(e-127)`; subnormal: `m * 2^(-149)`;
both are written over the common denominator `2^150`.  Exponent 255
(inf/NaN) is outside the model (the claims only use normal values). -/
def decodeFloat32Bits (b : ℕ) : ℚ :=
  let s := b / 2 ^ 31 % 2
  let e := b / 2 ^ 23 % 2 ^ 8
  let m := b % 2 ^ 23
  let mag : ℚ := ((if e = 0 then 2 * m else (2 ^ 23 + m) * 2 ^ e : ℕ) : ℚ) / 2 ^ 150
  if s = 1 then -mag else mag

/-- Decode two registers with word order *big* (first word is the high
half), the convention named by the spec's end-to-end scenario. -/
def decode_float32_big (r0 r1 : ℕ) : ℚ :=
  decodeFloat32Bits (r0 * 2 ^ 16 + r1)

/-- The decode actually performed by `rs485_handler.py` lines 178-179:
`struct.pack('>HH', raw_registers[1], raw_registers[0])` puts the second
register in the high half, i.e. word order *little* (first word low). -/
def struct_unpack_float (r0 r1 : ℕ) : ℚ :=
  decodeFloat32Bits (r1 * 2 ^ 16 + r0)

/-! ### Calibration model (`conductivity_to_concentration`, lines 35-81) -/

/-- Numeric path of `rs485_handler.py` lines 54-72: clamp negative
conductivity to `0.0`, apply `y = 0.000092*x - 0.126115`, clamp a
negative result to `0.0`. -/
def conductivity_to_concentration (x : ℚ) : ℚ :=
  if x < 0 then 0
  else
    let concentration := 0.000092 * x - 0.126115
    if concentration < 0 then 0
    else concentration

/-- Input to the calibration function as Python sees it: either a value
`float()` converts (numbers, numeric strings), or one on which `float()`
raises `ValueError`/`TypeError`. -/
inductive CalInput where
  | numeric (q : ℚ)
  | nonNumeric
  deriving DecidableEq

/-- Observable outcome of a call to the calibration function: a returned
value together with whether a `log.error` record was emitted, or a
propagated exception. -/
inductive CalOutcome where
  | value (q : ℚ) (errorLogged : Bool)
  | raised
  deriving DecidableEq

/-- Full behaviour of `conductivity_to_concentration` including its
`except (ValueError, TypeError)` handler (lines 74-77): a non-numeric
input is logged with `log.error` and the function *returns* `0.0`; no
exception escapes. -/
def conductivity_to_concentration_checked : CalInput → CalOutcome
  | .numeric q => .value (conductivity_to_concentration q) false
  | .nonNumeric => .value 0 true

/-- Python `int()` applied to a float: truncation toward zero. -/
def pyInt (q : ℚ) : ℤ :=
  if 0 ≤ q then ⌊q⌋ else -⌊-q⌋

/-- Server-side scaling at `rs485_handler.py` line 192: `int(concentration_value * 100)`. -/
def concentration_register_value (c : ℚ) : ℤ :=
  pyInt (c * 100)

/-- Client-side reconstruction at `modbus_client.py` line 85: `concentration_raw / 100.0`. -/
def client_concentration (r : ℤ) : ℚ :=
  (r : ℚ) / 100

/-- Round to 4 decimal places (half away from zero for the nonnegative
values used here), to state the spec's "rounded to 4 decimals". -/
def round4 (q : ℚ) : ℚ :=
  (⌊q * 10000 + 1 / 2⌋ : ℚ) / 10000

/-! ### The GUI fan-out queue (`main.py` line 379: `queue.Queue()`) -/

/-- Model of Python's `queue.Queue`: `maxsize = 0` (the default used at
`main.py` line 379) means the queue is unbounded. -/
structure PyQueue (α : Type) where
  maxsize : ℕ
  items : List α

/-- Python's `Queue.put` with the default `block=True`: appends when the queue is
unbounded (`maxsize = 0`) or not yet full; otherwise the caller would
block (second component `true`). -/
def PyQueue.put {α : Type} (q : PyQueue α) (x : α) : PyQueue α × Bool :=
  if q.maxsize = 0 ∨ q.items.length < q.maxsize then
    (⟨q.maxsize, q.items ++ [x]⟩, false)
  else
    (q, true)

/-- A message on the GUI queue (`rs485_handler.py` lines 202-204). -/
inductive QMsg where
  | conductivity (q : ℚ)
  | concentration (q : ℚ)
  | status
  deriving DecidableEq

/-- Line 379 of `main.py`: `data_queue = queue.Queue()` — no `maxsize`. -/
def data_queue : PyQueue QMsg := ⟨0, []⟩

/-- Perform `n` consecutive `put`s of a fixed message with no draining; the
second component records whether any of them would have blocked. -/
def putN (q : PyQueue QMsg) : ℕ → PyQueue QMsg × Bool
  | 0 => (q, false)
  | n + 1 =>
    let p := putN q n
    let r := p.1.put .status
    (r.1, p.2 || r.2)

/-! ### The acquisition loop (`update_from_rs485_loop`, lines 117-216)

One iteration of the `while True` body is modelled as a step function on
the loop's mutable state (socket open flag, configuration latch, data
point counter), the shared Modbus TCP data store, and the GUI queue.
The device's behaviour during the iteration (connect outcome, responses
to the configuration read and the data read) is an input `Env`.  Every
externally observable act of the iteration (log records, sleeps,
connect/read attempts, store writes, queue puts, session close) is
recorded in an action trace. -/

/-- Result of a pymodbus call: a response whose `isError()` is true, a
successful response carrying registers, or a raised exception. -/
inductive RResult where
  | err
  | ok (regs : List ℕ)
  | exn
  deriving DecidableEq

/-- The device/transport behaviour during one loop iteration. -/
structure Env where
  connectOk : Bool
  cfgRead : RResult
  cfgWriteErr : Bool
  readResult : RResult
  deriving DecidableEq

/-- The loop's mutable local state (lines 112-114): whether the serial
socket is open, the one-time configuration latch, and the data point
counter. -/
structure LoopState where
  connOpen : Bool
  is_configured : Bool
  data_point_counter : ℕ
  deriving DecidableEq

/-- The Modbus TCP server's data store (`main.py` lines 368-373):
discrete inputs, coils, holding registers and input registers, all
zero/false initialized. -/
structure Store where
  di : ℕ → Bool
  co : ℕ → Bool
  hr : ℕ → ℤ
  ir : ℕ → ℤ

/-- Write a list of values into a register file starting at `addr`. -/
def writeRegs (f : ℕ → ℤ) (addr : ℕ) (vals : List ℤ) : ℕ → ℤ :=
  fun a => if addr ≤ a ∧ a - addr < vals.length then vals.getD (a - addr) (f a) else f a

/-- Model of `context[device_id].setValues(fc, addr, vals)`: the loop only ever
uses function code 3 (holding registers); other codes are untouched by
this model because no call site uses them. -/
def Store.setValues (st : Store) (fc : ℕ) (addr : ℕ) (vals : List ℤ) : Store :=
  if fc = 3 then { st with hr := writeRegs st.hr addr vals } else st

/-- The configuration values read at lines 98-105 that the step function
depends on. -/
structure Cfg where
  pollInterval : ℚ
  read_addr : ℕ
  read_count : ℕ
  write_addr : ℕ
  write_addr_conc : ℕ
  deriving DecidableEq

/-- Observable actions of one loop iteration. -/
inductive Action where
  | warnLost                               -- log.warning "RS485 connection lost", line 121
  | connAttempt                            -- client.connect(), line 122
  | logConnFail                            -- log.error "Reconnection failed", line 123
  | sleep (d : ℚ)                          -- time.sleep(d), lines 124 and 216
  | cfgAttempt                             -- one-time configuration block entered, line 131
  | devWrite32                             -- client.write_register(address=32, value=1), line 140
  | readAttempt                            -- client.read_holding_registers(read_addr, ...), line 160
  | logReadError                           -- log.error "Modbus RTU read error", line 164
  | logDataPoint (regs : List ℕ)           -- log.info "[Data point #n] ...", line 168
  | storeWrite (addr : ℕ) (vals : List ℤ)  -- context[device_id].setValues(3, ...), lines 185, 195
  | putQueue (m : QMsg)                    -- data_queue.put(...), lines 202-204
  | logFatal                               -- log.error "Fatal error in RS485 polling loop", line 211
  | closeSession                           -- client.close(), line 212
  | readDI                                 -- modbus_client.py line 46
  | readHR                                 -- modbus_client.py line 63
  | logClientReadError                     -- modbus_client.py lines 48, 65
  deriving DecidableEq

/-- The whole mutable world one iteration acts on. -/
structure World where
  loop : LoopState
  store : Store
  queue : PyQueue QMsg

/-- Actions of the one-time configuration block, lines 130-156.  Every
path (read error, mode already 1, mode rewritten, empty payload raising
`IndexError`, exception) falls through with the latch set; the write to
device register 32 happens only when the mode read succeeds with a value
other than 1. -/
def cfgActions (e : Env) : List Action :=
  Action.cfgAttempt ::
    match e.cfgRead with
    | .err => []
    | .ok [] => []          -- registers[0] raises IndexError, caught at line 152
    | .ok (m :: _) => if m ≠ 1 then [Action.devWrite32] else []
    | .exn => []            -- caught at line 152; the latch is still set

/-- Lines 170-205: handle a successful read.  A payload of exactly two
registers is decoded (second register high, lines 178-179), written raw
to the store at `write_addr`, converted to a concentration written at
`write_addr_conc`, and published to the GUI queue; any other payload
length is skipped with no store write, no publish and no further log. -/
def processRegisters (cfg : Cfg) (regs : List ℕ) (st : Store) (q : PyQueue QMsg) :
    Store × PyQueue QMsg × List Action :=
  if regs.length = 2 then
    let r0 := regs.getD 0 0
    let r1 := regs.getD 1 0
    let conductivity_value := struct_unpack_float r0 r1
    let st1 := st.setValues 3 cfg.write_addr [(r0 : ℤ), (r1 : ℤ)]
    let concentration_value := conductivity_to_concentration conductivity_value
    let crv := concentration_register_value concentration_value
    let st2 := st1.setValues 3 cfg.write_addr_conc [crv]
    let q1 := (q.put (.conductivity conductivity_value)).1
    let q2 := (q1.put (.concentration concentration_value)).1
    let q3 := (q2.put .status).1
    (st2, q3,
      [.storeWrite cfg.write_addr [(r0 : ℤ), (r1 : ℤ)],
       .storeWrite cfg.write_addr_conc [crv],
       .putQueue (.conductivity conductivity_value),
       .putQueue (.concentration concentration_value),
       .putQueue .status])
  else (st, q, [])

/-- Lines 127-216 with an open connection: run the configuration block
if the latch is unset (the latch comes out set on every path), issue the
data read, and dispatch on its outcome.  An error object is only logged
(lines 163-164) — the session is *not* closed; an exception reaches the
outer handler which logs and closes (lines 209-212); the final
`time.sleep(poll_interval)` (line 216) always runs on these paths. -/
def pollPhase (cfg : Cfg) (e : Env) (w : World) (pre : List Action) : World × List Action :=
  let cfgTr := if w.loop.is_configured then [] else cfgActions e
  let loop1 : LoopState := { w.loop with is_configured := true }
  match e.readResult with
  | .exn =>
    ({ loop := { loop1 with connOpen := false }, store := w.store, queue := w.queue },
      pre ++ cfgTr ++ [.readAttempt, .logFatal, .closeSession, .sleep cfg.pollInterval])
  | .err =>
    ({ loop := loop1, store := w.store, queue := w.queue },
      pre ++ cfgTr ++ [.readAttempt, .logReadError, .sleep cfg.pollInterval])
  | .ok regs =>
    let loop2 : LoopState := { loop1 with data_point_counter := loop1.data_point_counter + 1 }
    let p := processRegisters cfg regs w.store w.queue
    ({ loop := loop2, store := p.1, queue := p.2.1 },
      pre ++ cfgTr ++ [.readAttempt, .logDataPoint regs] ++ p.2.2 ++ [.sleep cfg.pollInterval])

/-- One iteration of the `while True` body, lines 117-216.  With the
socket closed (lines 120-125): warn, attempt to connect; on failure log
the error, sleep the poll interval and `continue` (skipping the rest of
the body including the final sleep); on success fall through to the
poll phase. -/
def stepIter (cfg : Cfg) (e : Env) (w : World) : World × List Action :=
  if w.loop.connOpen then
    pollPhase cfg e w []
  else if e.connectOk then
    pollPhase cfg e { w with loop := { w.loop with connOpen := true } }
      [.warnLost, .connAttempt]
  else
    (w, [.warnLost, .connAttempt, .logConnFail, .sleep cfg.pollInterval])

/-- Run the loop through a finite script of device behaviours,
concatenating the iteration traces. -/
def runWorld (cfg : Cfg) : List Env → World → World × List Action
  | [], w => (w, [])
  | e :: es, w =>
    let p := stepIter cfg e w
    let r := runWorld cfg es p.1
    (r.1, p.2 ++ r.2)

/-- Occurrences of an action in a trace. -/
def countA (a : Action) : List Action → ℕ
  | [] => 0
  | b :: t => (if b = a then 1 else 0) + countA a t

/-- The zero-initialized data store built at `main.py` lines 368-373. -/
def store0 : Store := ⟨fun _ => false, fun _ => false, fun _ => 0, fun _ => 0⟩

/-- The world at loop start: socket closed, latch unset, counter zero,
fresh store and empty GUI queue. -/
def w0 : World := ⟨⟨false, false, 0⟩, store0, data_queue⟩

/-- An iteration in which the connect attempt fails (nothing else is
consulted). -/
def failEnv : Env := ⟨false, .err, false, .err⟩

/-- An iteration in which connect succeeds, the configuration read finds
mode already 1, and the data read returns the two registers that encode
conductivity 12500.0 in the device's word order (second register high). -/
def okEnv : Env := ⟨true, .ok [1], false, .ok [0x5000, 0x4643]⟩

/-! ### The TCP client loop (`run_resilient_modbus_client`, lines 26-97)

Only the connection/read/close skeleton is modelled; the printing of
decoded values has no effect on the state.  `RECONNECT_DELAY_S = 5`,
`READ_INTERVAL_S = 1`. -/

/-- The server's behaviour during one client-loop iteration. -/
structure ClientEnv where
  connectOk : Bool
  diResult : RResult
  hrResult : RResult
  deriving DecidableEq

/-- One iteration of the TCP client's `while True` body.  The state is
just whether the socket is open.  A discrete-input or holding-register
read whose response `isError()` logs, closes and `continue`s (lines
47-50, 64-67); payloads too short for the indexing at lines 53-55 and 83
raise, reaching the handler at line 93 which logs and closes. -/
def clientStep (e : ClientEnv) (connOpen : Bool) : Bool × List Action :=
  if connOpen = false ∧ e.connectOk = false then
    (false, [.connAttempt, .logConnFail, .sleep 5])
  else
    let pre : List Action := if connOpen then [] else [.connAttempt]
    match e.diResult with
    | .err => (false, pre ++ [.readDI, .logClientReadError, .closeSession])
    | .exn => (false, pre ++ [.readDI, .logFatal, .closeSession, .sleep 1])
    | .ok bits =>
      if bits.length < 3 then
        (false, pre ++ [.readDI, .logFatal, .closeSession, .sleep 1])
      else
        match e.hrResult with
        | .err => (false, pre ++ [.readDI, .readHR, .logClientReadError, .closeSession])
        | .exn => (false, pre ++ [.readDI, .readHR, .logFatal, .closeSession, .sleep 1])
        | .ok regs =>
          if regs.length < 3 then
            (false, pre ++ [.readDI, .readHR, .logFatal, .closeSession, .sleep 1])
          else
            (true, pre ++ [.readDI, .readHR, .sleep 1])

/-- A concrete configuration matching the register map documented in
`modbus_client.py` lines 21-24: conductivity at addresses 0-1,
concentration at address 2, two registers read per poll, a poll interval
of 1 second. -/
def cfg0 : Cfg := ⟨1, 0, 2, 0, 2⟩

/-- A world mid-run: session open, latch set, some samples seen. -/
def wOpen : World := ⟨⟨true, true, 5⟩, store0, data_queue⟩

/-- An iteration whose data read returns an error object
(`result.isError()` is true) on an otherwise healthy session. -/
def envErr : Env := ⟨true, .ok [1], false, .err⟩

/-- An iteration whose data read succeeds but returns one register
instead of the expected two. -/
def envShort : Env := ⟨true, .ok [1], false, .ok [70]⟩

/-! ### Helper lemmas -/

@[simp] lemma countA_nil (a : Action) : countA a [] = 0 := rfl

@[simp] lemma countA_cons (a b : Action) (t : List Action) :
    countA a (b :: t) = (if b = a then 1 else 0) + countA a t := rfl

lemma countA_append (a : Action) (l₁ l₂ : List Action) :
    countA a (l₁ ++ l₂) = countA a l₁ + countA a l₂ := by
  induction l₁ with
  | nil => simp
  | cons b t ih => simp [ih]; ring

lemma countA_eq_zero {a : Action} {l : List Action} :
    countA a l = 0 ↔ a ∉ l := by
  induction l with
  | nil => simp
  | cons b t ih =>
    simp only [countA_cons, List.mem_cons, not_or]
    by_cases hb : b = a
    · simp [hb, Nat.add_eq_zero]
    · simp [hb, ih, Ne.symm hb]

lemma putN_spec (n : ℕ) :
    (putN data_queue n).1.maxsize = 0 ∧
    (putN data_queue n).1.items.length = n ∧
    (putN data_queue n).2 = false := by
  induction n with
  | zero => simp [putN, data_queue]
  | succ n ih =>
    obtain ⟨h1, h2, h3⟩ := ih
    simp [putN, PyQueue.put, h1, h2, h3]

/-- C1.  With the default coefficient pair `(0.000092, -0.126115)`, the
calibration function returns `0.0` for negative conductivity, `0.0` when
the linear formula comes out negative, and the value of the linear
formula otherwise (`rs485_handler.py` lines 54-72). -/
theorem C1_calibration_piecewise (x : ℚ) :
    (x < 0 → conductivity_to_concentration x = 0) ∧
    (0 ≤ x → 0.000092 * x - 0.126115 < 0 → conductivity_to_concentration x = 0) ∧
    (0 ≤ x → 0 ≤ 0.000092 * x - 0.126115 →
      conductivity_to_concentration x = 0.000092 * x - 0.126115) := by
  refine ⟨fun h => ?_, fun h0 hneg => ?_, fun h0 hpos => ?_⟩
  · simp [conductivity_to_concentration, h]
  · simp [conductivity_to_concentration, not_lt.mpr h0, hneg]
  · simp [conductivity_to_concentration, not_lt.mpr h0, not_lt.mpr hpos]

/-- Witness for C1 at conductivities `-1` (negative input), `100`
(sub-threshold: `0.0092 - 0.126115 < 0`) and `12500`. -/
theorem C1_calibration_piecewise_witness :
    conductivity_to_concentration (-1) = 0 ∧
    conductivity_to_concentration 100 = 0 ∧
    conductivity_to_concentration 12500 = 0.000092 * 12500 - 0.126115 :=
  ⟨(C1_calibration_piecewise (-1)).1 (by norm_num),
   (C1_calibration_piecewise 100).2.1 (by norm_num) (by norm_num),
   (C1_calibration_piecewise 12500).2.2 (by norm_num) (by norm_num)⟩

/-- C3 counterexample.  The fan-out queue of `main.py` line 379 is
`queue.Queue()` with no `maxsize`: it is unbounded, so there is no
capacity `K` at which publishes stop accumulating — after `K + 1`
publishes with no draining it already holds `K + 1` entries, not `K`. -/
theorem C3_counterexample :
    ¬ ∃ K : ℕ, 0 < K ∧ ∀ M : ℕ, (putN data_queue (K + M)).1.items.length = K := by
  rintro ⟨K, -, h⟩
  have h1 := h 1
  rw [(putN_spec (K + 1)).2.1] at h1
  omega

/-- C3 amended.  The fan-out queue is created unbounded
(`maxsize = 0`), so a publish never blocks the producer; after `n`
publishes with no draining the queue holds exactly `n` entries — the
excess is retained, not dropped. -/
theorem C3_amended_unbounded_queue (n : ℕ) :
    data_queue.maxsize = 0 ∧
    (putN data_queue n).1.items.length = n ∧
    (putN data_queue n).2 = false ∧
    (∀ (q : PyQueue QMsg) (x : QMsg), q.maxsize = 0 → (q.put x).2 = false) := by
  refine ⟨rfl, (putN_spec n).2.1, (putN_spec n).2.2, fun q x hq => ?_⟩
  simp [PyQueue.put, hq]

/-- Witness for C3 amended at `n = 2` and a put on the fresh queue. -/
theorem C3_amended_unbounded_queue_witness :
    (putN data_queue 2).1.items.length = 2 ∧ (data_queue.put .status).2 = false :=
  ⟨(C3_amended_unbounded_queue 2).2.1,
   (C3_amended_unbounded_queue 2).2.2.2 data_queue .status rfl⟩

/-- C4 counterexample.  `[0x4640, 0x0000]` decoded as an IEEE-754
binary32 with word order big (first word high) is the bit pattern
`0x46400000`, whose value is `12288.0`, not `12500.0`; moreover the
exact value of `0.000092 * 12500 - 0.126115` is `1.023885`, not
`1.02389`. -/
theorem C4_counterexample :
    decode_float32_big 0x4640 0x0000 = 12288 ∧
    decode_float32_big 0x4640 0x0000 ≠ 12500 ∧
    conductivity_to_concentration 12500 = 1.023885 ∧
    conductivity_to_concentration 12500 ≠ 1.02389 := by
  refine ⟨?_, ?_, ?_, ?_⟩ <;>
    norm_num [decode_float32_big, decodeFloat32Bits, conductivity_to_concentration]

/-- C4 amended.  The register pair that decodes to `12500.0` with word
order big is `[0x4643, 0x5000]`; the code path itself (second register
high, lines 178-179) yields `12500.0` from `[0x5000, 0x4643]`; and
`concentration(12500.0) = 0.000092*12500 - 0.126115 = 1.023885`, which
rounds to `1.0239` at 4 decimals. -/
theorem C4_amended_end_to_end :
    decode_float32_big 0x4643 0x5000 = 12500 ∧
    struct_unpack_float 0x5000 0x4643 = 12500 ∧
    conductivity_to_concentration 12500 = 0.000092 * 12500 - 0.126115 ∧
    conductivity_to_concentration 12500 = 1.023885 ∧
    round4 (conductivity_to_concentration 12500) = 1.0239 := by
  refine ⟨?_, ?_, ?_, ?_, ?_⟩ <;>
    norm_num [decode_float32_big, struct_unpack_float, decodeFloat32Bits,
      conductivity_to_concentration, round4]

/-- C5 counterexample.  On a non-numeric input the calibration function
does not fail: the `except (ValueError, TypeError)` handler at lines
74-77 logs an error and *returns* the numeric value `0.0`. -/
theorem C5_counterexample :
    conductivity_to_concentration_checked .nonNumeric = .value 0 true ∧
    conductivity_to_concentration_checked .nonNumeric ≠ .raised := by
  refine ⟨rfl, ?_⟩
  simp [conductivity_to_concentration_checked]

/-- C5 amended.  A non-numeric input is not silently coerced — a
`log.error` record is emitted for it — but the function does not fail:
it returns the numeric floor value `0.0`, and no input makes it raise. -/
theorem C5_amended_nonnumeric_returns_floor :
    conductivity_to_concentration_checked .nonNumeric = .value 0 true ∧
    (∀ inp : CalInput, conductivity_to_concentration_checked inp ≠ .raised) := by
  refine ⟨rfl, fun inp => ?_⟩
  cases inp <;> simp [conductivity_to_concentration_checked]

/-- The calibration function never returns a negative concentration. -/
lemma conductivity_to_concentration_nonneg (x : ℚ) :
    0 ≤ conductivity_to_concentration x := by
  unfold conductivity_to_concentration
  split_ifs with h1
  · exact le_refl (0 : ℚ)
  · show (0 : ℚ) ≤ if 0.000092 * x - 0.126115 < 0 then 0 else 0.000092 * x - 0.126115
    split_ifs with h2
    · exact le_refl (0 : ℚ)
    · exact not_lt.mp h2

/-- C10.  The concentration register value is
`int(concentration * 100)` (line 192), which for the clamped
(nonnegative) concentration is the floor of `100·c`, hence a
nonnegative integer; the client-side reconstruction `register / 100.0`
(`modbus_client.py` line 85) never exceeds the true concentration and
differs from it by strictly less than `0.01`. -/
theorem C10_concentration_register_roundtrip (x : ℚ) :
    0 ≤ conductivity_to_concentration x ∧
    concentration_register_value (conductivity_to_concentration x) =
      ⌊conductivity_to_concentration x * 100⌋ ∧
    0 ≤ concentration_register_value (conductivity_to_concentration x) ∧
    client_concentration (concentration_register_value (conductivity_to_concentration x)) ≤
      conductivity_to_concentration x ∧
    conductivity_to_concentration x -
      client_concentration (concentration_register_value (conductivity_to_concentration x)) <
      1 / 100 := by
  have hc : 0 ≤ conductivity_to_concentration x := conductivity_to_concentration_nonneg x
  set c := conductivity_to_concentration x with hcdef
  have h100 : (0 : ℚ) ≤ c * 100 := by positivity
  have hreg : concentration_register_value c = ⌊c * 100⌋ := by
    simp [concentration_register_value, pyInt, h100]
  have hfl : (⌊c * 100⌋ : ℚ) ≤ c * 100 := Int.floor_le _
  have hfu : c * 100 < (⌊c * 100⌋ : ℚ) + 1 := Int.lt_floor_add_one _
  refine ⟨hc, hreg, ?_, ?_, ?_⟩
  · rw [hreg]
    exact Int.floor_nonneg.mpr h100
  · rw [hreg]
    unfold client_concentration
    rw [div_le_iff₀ (by norm_num : (0:ℚ) < 100)]
    linarith
  · rw [hreg]
    unfold client_concentration
    rw [sub_lt_iff_lt_add, div_add_div_same]
    rw [lt_div_iff₀ (by norm_num : (0:ℚ) < 100)]
    linarith

lemma pollPhase_latch (cfg : Cfg) (e : Env) (w : World) (pre : List Action) :
    (pollPhase cfg e w pre).1.loop.is_configured = true := by
  rcases h : e.readResult with _ | regs | _ <;> simp [pollPhase, h]

lemma pollPhase_read_mem (cfg : Cfg) (e : Env) (w : World) (pre : List Action) :
    Action.readAttempt ∈ (pollPhase cfg e w pre).2 := by
  rcases h : e.readResult with _ | regs | _ <;> simp [pollPhase, h]

lemma cfgActions_count (e : Env) : countA .cfgAttempt (cfgActions e) = 1 := by
  rcases h : e.cfgRead with _ | regs | _
  · simp [cfgActions, h]
  · rcases regs with _ | ⟨m, rest⟩
    · simp [cfgActions, h]
    · by_cases hm : m = 1 <;> simp [cfgActions, h, hm]
  · simp [cfgActions, h]

lemma mem_cfgActions (e : Env) (a : Action) (h : a ∈ cfgActions e) :
    a = .cfgAttempt ∨ a = .devWrite32 := by
  rcases hc : e.cfgRead with _ | regs | _
  · simp [cfgActions, hc] at h
    exact Or.inl h
  · rcases regs with _ | ⟨m, rest⟩
    · simp [cfgActions, hc] at h
      exact Or.inl h
    · by_cases hm : m = 1
      · simp [cfgActions, hc, hm] at h
        exact Or.inl h
      · simp [cfgActions, hc, hm] at h
        exact h
  · simp [cfgActions, hc] at h
    exact Or.inl h

lemma cfgActions_count_other (e : Env) (a : Action)
    (h1 : a ≠ .cfgAttempt) (h2 : a ≠ .devWrite32) :
    countA a (cfgActions e) = 0 := by
  rw [countA_eq_zero]
  intro hmem
  rcases mem_cfgActions e a hmem with h | h
  · exact h1 h
  · exact h2 h

lemma processRegisters_count (a : Action) (cfg : Cfg) (regs : List ℕ) (st : Store)
    (q : PyQueue QMsg) (ha : ∀ ad vs, a ≠ .storeWrite ad vs) (hb : ∀ m, a ≠ .putQueue m) :
    countA a (processRegisters cfg regs st q).2.2 = 0 := by
  by_cases h2 : regs.length = 2 <;>
    simp [processRegisters, h2, Ne.symm (ha _ _), Ne.symm (hb _)]

lemma pollPhase_cfg_count (cfg : Cfg) (e : Env) (w : World) (pre : List Action) :
    countA .cfgAttempt (pollPhase cfg e w pre).2 =
      countA .cfgAttempt pre + (if w.loop.is_configured then 0 else 1) := by
  have hp : ∀ regs st q, countA .cfgAttempt (processRegisters cfg regs st q).2.2 = 0 :=
    fun regs st q =>
      processRegisters_count _ cfg regs st q (by intro _ _ h; cases h) (by intro _ h; cases h)
  rcases h : e.readResult with _ | regs | _ <;>
    by_cases hic : w.loop.is_configured <;>
      simp [pollPhase, h, hic, countA_append, cfgActions_count, hp]

lemma pollPhase_conn_count (cfg : Cfg) (e : Env) (w : World) (pre : List Action) :
    countA .connAttempt (pollPhase cfg e w pre).2 = countA .connAttempt pre := by
  have hp : ∀ regs st q, countA .connAttempt (processRegisters cfg regs st q).2.2 = 0 :=
    fun regs st q =>
      processRegisters_count _ cfg regs st q (by intro _ _ h; cases h) (by intro _ h; cases h)
  have hcfg : countA .connAttempt (cfgActions e) = 0 :=
    cfgActions_count_other e _ (by intro h; cases h) (by intro h; cases h)
  rcases h : e.readResult with _ | regs | _ <;>
    by_cases hic : w.loop.is_configured <;>
      simp [pollPhase, h, hic, countA_append, hcfg, hp]

lemma pollPhase_err_trace (cfg : Cfg) (e : Env) (w : World) (pre : List Action)
    (hres : e.readResult = .err) :
    (pollPhase cfg e w pre).2 =
      pre ++ (if w.loop.is_configured then [] else cfgActions e) ++
        [.readAttempt, .logReadError, .sleep cfg.pollInterval] ∧
    (pollPhase cfg e w pre).1.loop.connOpen = w.loop.connOpen ∧
    (pollPhase cfg e w pre).1.store = w.store ∧
    (pollPhase cfg e w pre).1.queue = w.queue := by
  simp [pollPhase, hres]

lemma stepIter_latch_mono (cfg : Cfg) (e : Env) (w : World)
    (h : w.loop.is_configured = true) :
    (stepIter cfg e w).1.loop.is_configured = true := by
  unfold stepIter
  split_ifs with h1 h2
  · exact pollPhase_latch ..
  · exact pollPhase_latch ..
  · exact h

lemma stepIter_cfg_count (cfg : Cfg) (e : Env) (w : World) :
    countA .cfgAttempt (stepIter cfg e w).2 =
      if w.loop.is_configured then 0 else
        if w.loop.connOpen = false ∧ e.connectOk = false then 0 else 1 := by
  unfold stepIter
  split_ifs with h1 h2 <;> simp_all [pollPhase_cfg_count]

lemma stepIter_latch_of_cfg (cfg : Cfg) (e : Env) (w : World)
    (h : countA .cfgAttempt (stepIter cfg e w).2 ≠ 0) :
    (stepIter cfg e w).1.loop.is_configured = true := by
  unfold stepIter at *
  split_ifs at h ⊢ with h1 h2
  · exact pollPhase_latch ..
  · exact pollPhase_latch ..
  · simp [countA] at h

lemma run_cfg_zero (cfg : Cfg) (envs : List Env) : ∀ w : World,
    w.loop.is_configured = true → countA .cfgAttempt (runWorld cfg envs w).2 = 0 := by
  induction envs with
  | nil => intro w _; simp [runWorld]
  | cons e es ih =>
    intro w hw
    simp only [runWorld, countA_append]
    rw [stepIter_cfg_count, ih _ (stepIter_latch_mono cfg e w hw)]
    simp [hw]

lemma run_cfg_le_one (cfg : Cfg) (envs : List Env) : ∀ w : World,
    countA .cfgAttempt (runWorld cfg envs w).2 ≤ 1 := by
  induction envs with
  | nil => intro w; simp [runWorld]
  | cons e es ih =>
    intro w
    simp only [runWorld, countA_append]
    by_cases h : countA .cfgAttempt (stepIter cfg e w).2 = 0
    · rw [h]
      simpa using ih (stepIter cfg e w).1
    · rw [run_cfg_zero cfg es _ (stepIter_latch_of_cfg cfg e w h)]
      rw [stepIter_cfg_count] at h ⊢
      split_ifs at h ⊢ with hic hcc
      all_goals simp_all

lemma stepIter_fail (cfg : Cfg) (w : World) (hco : w.loop.connOpen = false) :
    stepIter cfg failEnv w =
      (w, [.warnLost, .connAttempt, .logConnFail, .sleep cfg.pollInterval]) := by
  simp [stepIter, hco, failEnv]

lemma runFail (cfg : Cfg) (N : ℕ) :
    (runWorld cfg (List.replicate N failEnv) w0).1 = w0 ∧
    countA .logConnFail (runWorld cfg (List.replicate N failEnv) w0).2 = N ∧
    countA (.sleep cfg.pollInterval) (runWorld cfg (List.replicate N failEnv) w0).2 = N ∧
    (∀ d, Action.sleep d ∈ (runWorld cfg (List.replicate N failEnv) w0).2 →
      d = cfg.pollInterval) ∧
    Action.readAttempt ∉ (runWorld cfg (List.replicate N failEnv) w0).2 := by
  induction N with
  | zero => simp [runWorld]
  | succ n ih =>
    obtain ⟨h1, h2, h3, h4, h5⟩ := ih
    rw [List.replicate_succ]
    simp only [runWorld]
    rw [stepIter_fail cfg w0 rfl]
    refine ⟨h1, ?_, ?_, ?_, ?_⟩
    · simp [countA_append, h2]
      try omega
    · simp [countA_append, h3]
      try omega
    · intro d hd
      simp at hd
      rcases hd with h | h
      · exact h
      · exact h4 d h
    · simp [h5]

lemma stepIter_read_of_cfg (cfg : Cfg) (e : Env) (w : World)
    (h : Action.cfgAttempt ∈ (stepIter cfg e w).2) :
    Action.readAttempt ∈ (stepIter cfg e w).2 := by
  unfold stepIter at *
  split_ifs at h ⊢ with h1 h2
  · exact pollPhase_read_mem ..
  · exact pollPhase_read_mem ..
  · simp at h

lemma stepIter_open_read (cfg : Cfg) (e : Env) (w : World)
    (h : w.loop.connOpen = true) :
    Action.readAttempt ∈ (stepIter cfg e w).2 := by
  unfold stepIter
  rw [if_pos h]
  exact pollPhase_read_mem ..

lemma stepIter_open_no_conn (cfg : Cfg) (e : Env) (w : World)
    (h : w.loop.connOpen = true) :
    Action.connAttempt ∉ (stepIter cfg e w).2 := by
  rw [← countA_eq_zero]
  unfold stepIter
  rw [if_pos h, pollPhase_conn_count]
  rfl

lemma writeRegs_outside (f : ℕ → ℤ) (addr : ℕ) (vals : List ℤ) (a : ℕ)
    (h : ¬(addr ≤ a ∧ a - addr < vals.length)) :
    writeRegs f addr vals a = f a := by
  simp only [writeRegs, if_neg h]

lemma writeRegs_one (f : ℕ → ℤ) (addr : ℕ) (x : ℤ) (a : ℕ) (h : a ≠ addr) :
    writeRegs f addr [x] a = f a := by
  apply writeRegs_outside
  simp only [List.length_cons, List.length_nil]
  omega

lemma writeRegs_two (f : ℕ → ℤ) (addr : ℕ) (x y : ℤ) (a : ℕ)
    (h0 : a ≠ addr) (h1 : a ≠ addr + 1) :
    writeRegs f addr [x, y] a = f a := by
  apply writeRegs_outside
  simp only [List.length_cons, List.length_nil]
  omega

lemma processRegisters_frame (cfg : Cfg) (regs : List ℕ) (st : Store) (q : PyQueue QMsg)
    (a : ℕ) (ha0 : a ≠ cfg.write_addr) (ha1 : a ≠ cfg.write_addr + 1)
    (ha2 : a ≠ cfg.write_addr_conc) :
    (processRegisters cfg regs st q).1.hr a = st.hr a ∧
    (processRegisters cfg regs st q).1.di = st.di ∧
    (processRegisters cfg regs st q).1.co = st.co ∧
    (processRegisters cfg regs st q).1.ir = st.ir := by
  by_cases h2 : regs.length = 2
  · refine ⟨?_, ?_, ?_, ?_⟩ <;> simp only [processRegisters, h2, if_pos, Store.setValues,
      if_true, reduceIte] <;> try rfl
    rw [writeRegs_one _ _ _ _ ha2, writeRegs_two _ _ _ _ _ ha0 ha1]
  · simp [processRegisters, h2]

lemma clientStep_closed_conn (e : ClientEnv) :
    Action.connAttempt ∈ (clientStep e false).2 := by
  by_cases hc : e.connectOk
  · rcases hd : e.diResult with _ | bits | _
    · simp [clientStep, hc, hd]
    · by_cases hb : bits.length < 3
      · simp [clientStep, hc, hd, hb]
      · rcases hh : e.hrResult with _ | regs | _
        · simp [clientStep, hc, hd, hb, hh]
        · by_cases hr3 : regs.length < 3 <;> simp [clientStep, hc, hd, hb, hh, hr3]
        · simp [clientStep, hc, hd, hb, hh]
    · simp [clientStep, hc, hd]
  · simp [clientStep, hc]

/-- C2 counterexample.  With the session open and the latch set, a read
whose response `isError()` is true only produces a log record (lines
163-164): the session is not closed, the loop does not re-enter the
connect branch, and the very next iteration issues another read on the
same session without any connect attempt. -/
theorem C2_counterexample :
    (stepIter cfg0 envErr wOpen).1.loop.connOpen = true ∧
    Action.closeSession ∉ (stepIter cfg0 envErr wOpen).2 ∧
    Action.connAttempt ∉ (stepIter cfg0 envErr wOpen).2 ∧
    (stepIter cfg0 envErr wOpen).2 = [Action.readAttempt, .logReadError, .sleep 1] ∧
    Action.readAttempt ∈ (stepIter cfg0 envErr (stepIter cfg0 envErr wOpen).1).2 ∧
    Action.connAttempt ∉ (stepIter cfg0 envErr (stepIter cfg0 envErr wOpen).1).2 := by
  simp [stepIter, pollPhase, cfg0, envErr, wOpen]

/-- C2 amended.  The two loops behave differently on a protocol-level
read error.  RS485 acquisition loop (`rs485_handler.py` lines 163-164):
the error object is logged, the session is *not* closed, the loop does
not re-enter the connect branch, and the next iteration issues another
read on the same faulted session.  TCP client loop (`modbus_client.py`
lines 64-67): the error is logged, the session is closed, and the next
iteration attempts a reconnect. -/
theorem C2_amended_read_error_paths :
    (∀ (cfg : Cfg) (e : Env) (w : World), w.loop.connOpen = true → e.readResult = .err →
      (stepIter cfg e w).1.loop.connOpen = true ∧
      Action.closeSession ∉ (stepIter cfg e w).2 ∧
      Action.connAttempt ∉ (stepIter cfg e w).2 ∧
      Action.logReadError ∈ (stepIter cfg e w).2 ∧
      (∀ e2, Action.readAttempt ∈ (stepIter cfg e2 (stepIter cfg e w).1).2 ∧
        Action.connAttempt ∉ (stepIter cfg e2 (stepIter cfg e w).1).2)) ∧
    (∀ (e : ClientEnv) (bits : List ℕ), e.diResult = .ok bits → 3 ≤ bits.length →
      e.hrResult = .err →
      (clientStep e true).1 = false ∧
      Action.closeSession ∈ (clientStep e true).2 ∧
      (∀ e2, Action.connAttempt ∈ (clientStep e2 (clientStep e true).1).2)) := by
  constructor
  · intro cfg e w hconn hres
    have hstep : stepIter cfg e w = pollPhase cfg e w [] := by
      unfold stepIter
      rw [if_pos hconn]
    have hshape := pollPhase_err_trace cfg e w [] hres
    have hopen : (stepIter cfg e w).1.loop.connOpen = true := by
      rw [hstep, hshape.2.1, hconn]
    refine ⟨hopen, ?_, stepIter_open_no_conn cfg e w hconn, ?_, fun e2 =>
      ⟨stepIter_open_read cfg e2 _ hopen, stepIter_open_no_conn cfg e2 _ hopen⟩⟩
    · rw [hstep, hshape.1]
      simp only [List.nil_append, List.mem_append, List.mem_cons, List.not_mem_nil, or_false]
      rintro (h | h | h | h)
      · by_cases hic : w.loop.is_configured
        · rw [if_pos hic] at h
          simp at h
        · rw [if_neg hic] at h
          rcases mem_cfgActions e _ h with h' | h' <;> cases h'
      · cases h
      · cases h
      · cases h
    · rw [hstep, hshape.1]
      simp
  · intro e bits hdi hb hhr
    have hb' : ¬bits.length < 3 := by omega
    have h1 : (clientStep e true).1 = false ∧ Action.closeSession ∈ (clientStep e true).2 := by
      simp [clientStep, hdi, hhr, hb']
    refine ⟨h1.1, h1.2, fun e2 => ?_⟩
    rw [h1.1]
    exact clientStep_closed_conn e2

/-- Witness for C2 amended: the RS485 branch at the concrete faulted
iteration of the counterexample scenario, and the client branch at a
concrete environment whose holding-register read errors. -/
theorem C2_amended_read_error_paths_witness :
    (stepIter cfg0 envErr wOpen).1.loop.connOpen = true ∧
    (clientStep ⟨true, .ok [2, 3, 5], .err⟩ true).1 = false :=
  ⟨(C2_amended_read_error_paths.1 cfg0 envErr wOpen rfl rfl).1,
   (C2_amended_read_error_paths.2 ⟨true, .ok [2, 3, 5], .err⟩ [2, 3, 5] rfl
      (by norm_num) rfl).1⟩

/-- C6.  If `connect()` fails exactly `N` times and then succeeds, the
loop performs exactly `N` reconnect-delay sleeps — every one of the
fixed length `poll_interval` (lines 122-125), so the delay never grows —
and logs exactly `N` failures, attempting no read during that phase; the
loop state after `N` failures equals the initial state, so the retry
continues unchanged forever (no retry-count cap); and the following
iteration connects, runs the one-time configuration, and reaches the
data read (Polling) with no further sleep or failure log before it. -/
theorem C6_reconnect_exactly_N (N : ℕ) (cfg : Cfg) :
    (runWorld cfg (List.replicate N failEnv) w0).1 = w0 ∧
    countA .logConnFail (runWorld cfg (List.replicate N failEnv) w0).2 = N ∧
    countA (.sleep cfg.pollInterval) (runWorld cfg (List.replicate N failEnv) w0).2 = N ∧
    (∀ d, Action.sleep d ∈ (runWorld cfg (List.replicate N failEnv) w0).2 →
      d = cfg.pollInterval) ∧
    Action.readAttempt ∉ (runWorld cfg (List.replicate N failEnv) w0).2 ∧
    (∃ tail, (stepIter cfg okEnv w0).2 =
      [.warnLost, .connAttempt, .cfgAttempt, .readAttempt] ++ tail) ∧
    (stepIter cfg okEnv w0).1.loop.connOpen = true := by
  obtain ⟨h1, h2, h3, h4, h5⟩ := runFail cfg N
  refine ⟨h1, h2, h3, h4, h5, ?_, ?_⟩
  · exact ⟨Action.logDataPoint [0x5000, 0x4643] ::
      ((processRegisters cfg [0x5000, 0x4643] store0 data_queue).2.2 ++
        [Action.sleep cfg.pollInterval]),
      by simp [stepIter, pollPhase, okEnv, w0, cfgActions]⟩
  · simp [stepIter, pollPhase, okEnv, w0]

/-- Witness for C6 at `N = 2` with the concrete configuration, including
an instance of the fixed-sleep-duration hypothesis. -/
theorem C6_reconnect_exactly_N_witness :
    countA .logConnFail (runWorld cfg0 (List.replicate 2 failEnv) w0).2 = 2 ∧
    (1 : ℚ) = cfg0.pollInterval :=
  ⟨(C6_reconnect_exactly_N 2 cfg0).2.1,
   (C6_reconnect_exactly_N 2 cfg0).2.2.2.1 1
      (by simp [runWorld, stepIter, pollPhase, failEnv, w0, cfg0])⟩

/-- C7.  The configuration latch: once set it survives every later
iteration and the configuration block never runs again; whenever the
block runs (a `cfgAttempt` appears in the trace), the latch comes out
set regardless of the device's responses, and the same iteration still
reaches the data read, so a failed configuration never blocks polling;
and over any run from any starting state the block executes at most
once. -/
theorem C7_config_latch_once :
    (∀ (cfg : Cfg) (e : Env) (w : World), w.loop.is_configured = true →
      (stepIter cfg e w).1.loop.is_configured = true ∧
      Action.cfgAttempt ∉ (stepIter cfg e w).2) ∧
    (∀ (cfg : Cfg) (e : Env) (w : World), Action.cfgAttempt ∈ (stepIter cfg e w).2 →
      (stepIter cfg e w).1.loop.is_configured = true ∧
      Action.readAttempt ∈ (stepIter cfg e w).2) ∧
    (∀ (cfg : Cfg) (envs : List Env) (w : World),
      countA .cfgAttempt (runWorld cfg envs w).2 ≤ 1) := by
  refine ⟨fun cfg e w h => ⟨stepIter_latch_mono cfg e w h, ?_⟩,
    fun cfg e w h => ⟨?_, stepIter_read_of_cfg cfg e w h⟩,
    fun cfg envs w => run_cfg_le_one cfg envs w⟩
  · rw [← countA_eq_zero, stepIter_cfg_count]
    simp [h]
  · refine stepIter_latch_of_cfg cfg e w ?_
    rw [Ne, countA_eq_zero]
    simp [h]

/-- Witness for C7: the latch survives an already-configured faulted
iteration, and the first configuring iteration from the initial state
sets it. -/
theorem C7_config_latch_once_witness :
    (stepIter cfg0 envErr wOpen).1.loop.is_configured = true ∧
    (stepIter cfg0 okEnv w0).1.loop.is_configured = true :=
  ⟨(C7_config_latch_once.1 cfg0 envErr wOpen rfl).1,
   (C7_config_latch_once.2.1 cfg0 okEnv w0
      (by simp [stepIter, pollPhase, okEnv, w0, cfgActions])).1⟩

/-- C8 counterexample.  A successful read returning one register instead
of two is skipped with no store write and no publish — but the complete
trace of that iteration is just the read, the unconditional per-sample
info log of the raw payload (line 168), and the cycle sleep: no log
record specific to the count mismatch exists (there is no `else` branch
at line 170), and the same info log also appears on well-formed reads,
as the final conjunct shows. -/
theorem C8_counterexample :
    (stepIter cfg0 envShort wOpen).2 =
      [Action.readAttempt, Action.logDataPoint [70], Action.sleep 1] ∧
    (stepIter cfg0 envShort wOpen).1.store.hr = wOpen.store.hr ∧
    (stepIter cfg0 envShort wOpen).1.queue = wOpen.queue ∧
    Action.logDataPoint [0x5000, 0x4643] ∈ (stepIter cfg0 okEnv wOpen).2 := by
  refine ⟨?_, rfl, rfl, ?_⟩
  · simp [stepIter, pollPhase, processRegisters, cfg0, envShort, wOpen]
  · simp [stepIter, pollPhase, processRegisters, cfg0, okEnv, wOpen]

/-- C8 amended.  A successful read with a register count other than 2 is
never padded or truncated into a value: the store and the queue are
untouched.  But the mismatch *is* silently swallowed: the iteration's
only actions are the read, the generic data-point info log emitted for
every successful read, and the sleep — no record specific to the
mismatch. -/
theorem C8_amended_wrong_count_skipped (cfg : Cfg) (e : Env) (w : World) (regs : List ℕ)
    (hconn : w.loop.connOpen = true) (hic : w.loop.is_configured = true)
    (hres : e.readResult = .ok regs) (hlen : regs.length ≠ 2) :
    (stepIter cfg e w).2 =
      [Action.readAttempt, Action.logDataPoint regs, Action.sleep cfg.pollInterval] ∧
    (stepIter cfg e w).1.store = w.store ∧
    (stepIter cfg e w).1.queue = w.queue := by
  simp [stepIter, pollPhase, processRegisters, hconn, hic, hres, hlen]

/-- Witness for C8 amended at the concrete short-read scenario. -/
theorem C8_amended_wrong_count_skipped_witness :
    (stepIter cfg0 envShort wOpen).1.queue = wOpen.queue :=
  (C8_amended_wrong_count_skipped cfg0 envShort wOpen [70] rfl rfl rfl
    (by norm_num)).2.2

/-- C9.  A successful poll cycle writes only the two holding registers
at `write_addr`, `write_addr + 1` (the raw conductivity words, line 185)
and the one at `write_addr_conc` (the scaled concentration, line 195):
every other holding register and the entire discrete-input, coil and
input-register tables are unchanged by the cycle. -/
theorem C9_store_frame (cfg : Cfg) (e : Env) (w : World) (regs : List ℕ) (a : ℕ)
    (hres : e.readResult = .ok regs) (hlen : regs.length = 2)
    (ha0 : a ≠ cfg.write_addr) (ha1 : a ≠ cfg.write_addr + 1)
    (ha2 : a ≠ cfg.write_addr_conc) :
    (stepIter cfg e w).1.store.hr a = w.store.hr a ∧
    (stepIter cfg e w).1.store.di = w.store.di ∧
    (stepIter cfg e w).1.store.co = w.store.co ∧
    (stepIter cfg e w).1.store.ir = w.store.ir := by
  unfold stepIter
  split_ifs with h1 h2
  · simp only [pollPhase, hres]
    exact processRegisters_frame cfg regs w.store w.queue a ha0 ha1 ha2
  · simp only [pollPhase, hres]
    exact processRegisters_frame cfg regs w.store w.queue a ha0 ha1 ha2
  · exact ⟨rfl, rfl, rfl, rfl⟩

/-- Witness for C9: with the concrete register map (conductivity at 0-1,
concentration at 2), holding register 50 is untouched by a successful
cycle. -/
theorem C9_store_frame_witness :
    (stepIter cfg0 okEnv wOpen).1.store.hr 50 = wOpen.store.hr 50 :=
  (C9_store_frame cfg0 okEnv wOpen [0x5000, 0x4643] 50 rfl rfl
    (by decide) (by decide) (by decide)).1

end ModbusGateway
